import Mathlib

/-!
Shallow embedding of the robot-manager application (src/app.py): the entity
tables, the qualification matcher, the availability calculator, the booking
validator branch, the schedule query layer, and the two delete operations.
Timestamps are modelled as integers with the usual linear order; the SQL
tables are modelled as lists of rows; the SERIAL id generator of the schedule
table is modelled as an explicit counter.
-/

namespace RobotOps

/-- Row of the robots table: robots(id, name, model, status). -/
structure Robot where
  id : Nat
  name : String
  model : String
  status : String
deriving DecidableEq

/-- Row of the operators table: operators(id, name, role, qualified_models),
where qualified_models is a nullable comma-joined string of model names. -/
structure Operator where
  id : Nat
  name : String
  role : String
  qualified_models : Option String
deriving DecidableEq

/-- Row of the schedule table: schedule(id, robot_id, operator_id,
project_name, start_time, end_time). -/
structure ScheduleEntry where
  id : Nat
  robot_id : Nat
  operator_id : Nat
  project_name : String
  start_time : Int
  end_time : Int
deriving DecidableEq

/-- The persistent store: the three tables plus the autoincrement counter of
the schedule table. -/
structure DB where
  robots : List Robot
  operators : List Operator
  schedule : List ScheduleEntry
  scheduleSeq : Nat
deriving DecidableEq

/-- Tests whether the second character list is an initial segment of the
first. -/
def startsWithChars : List Char → List Char → Bool
  | _, [] => true
  | [], _ :: _ => false
  | c :: cs, d :: ds => c == d && startsWithChars cs ds

/-- Tests whether the second character list occurs contiguously inside the
first. -/
def containsChars : List Char → List Char → Bool
  | [], pat => startsWithChars [] pat
  | c :: cs, pat => startsWithChars (c :: cs) pat || containsChars cs pat

/-- Case-sensitive literal substring test: the pandas call
Series.str.contains(pat, regex=False) used by the qualification matcher at
src/app.py line 215. -/
def strContainsSub (hay pat : String) : Bool :=
  containsChars hay.data pat.data

/-- The qualification matcher (src/app.py lines 213-217): if the roster is
empty the result is empty, otherwise keep the operators whose
qualified_models field (nulls read as the empty string, the fillna call)
contains the robot model as a literal substring. -/
def validOps (model : String) (all_ops : List Operator) : List Operator :=
  if all_ops.isEmpty then []
  else all_ops.filter (fun o => strContainsSub (o.qualified_models.getD "") model)

/-- Total robot count (src/app.py line 75): SELECT count(*) FROM robots. -/
def totalRobots (db : DB) : Nat :=
  db.robots.length

/-- Engaged count at an instant (src/app.py line 79): SELECT count(*) FROM
schedule WHERE start_time <= :now AND end_time >= :now. -/
def activeJobs (db : DB) (now : Int) : Nat :=
  (db.schedule.filter
    (fun s => decide (s.start_time ≤ now) && decide (s.end_time ≥ now))).length

/-- Available count (src/app.py line 82): total robots minus engaged count,
computed over the integers, so it may be negative. -/
def availableRobots (db : DB) (now : Int) : Int :=
  (totalRobots db : Int) - (activeJobs db now : Int)

/-- The engaged count as the specification words it: the number of schedule
rows satisfying start_time <= T <= end_time. Stated separately from
activeJobs so the two can be compared. -/
def engagedPerSpec (db : DB) (t : Int) : Nat :=
  (db.schedule.filter (fun s => decide (s.start_time ≤ t ∧ t ≤ s.end_time))).length

/-- One row of the joined schedule view (src/app.py lines 95-101): schedule
id, robot name, operator name, project, start, end. -/
structure JoinedRow where
  id : Nat
  robot : String
  operator : String
  project_name : String
  start_time : Int
  end_time : Int
deriving DecidableEq

/-- The inner join of the schedule query (src/app.py lines 95-99): for every
schedule row, every robots row with matching id and every operators row with
matching id contribute one output row. -/
def joinedRows (db : DB) : List JoinedRow :=
  db.schedule.flatMap (fun s =>
    (db.robots.filter (fun r => r.id == s.robot_id)).flatMap (fun r =>
      (db.operators.filter (fun o => o.id == s.operator_id)).map (fun o =>
        { id := s.id, robot := r.name, operator := o.name,
          project_name := s.project_name,
          start_time := s.start_time, end_time := s.end_time })))

/-- Display order of the schedule view: descending start_time (ORDER BY
s.start_time DESC, src/app.py line 100). -/
def rowLe (a b : JoinedRow) : Prop :=
  b.start_time ≤ a.start_time

instance : DecidableRel rowLe :=
  fun a b => inferInstanceAs (Decidable (b.start_time ≤ a.start_time))

instance : IsTotal JoinedRow rowLe :=
  ⟨fun a b => le_total b.start_time a.start_time⟩

instance : IsTrans JoinedRow rowLe :=
  ⟨fun _ _ _ hab hbc => le_trans hbc hab⟩

/-- The schedule query layer (src/app.py lines 95-101 and 121-127): the
joined rows ordered by start_time descending. -/
def scheduleView (db : DB) : List JoinedRow :=
  List.insertionSort rowLe (joinedRows db)

/-- A read of the schedule view in state-passing form: a SELECT returns its
result and performs no write (get_df, src/app.py lines 42-43, queries with
ttl=0 and never mutates). -/
def runScheduleQuery (db : DB) : DB × List JoinedRow :=
  (db, scheduleView db)

/-- Outcome of the booking form submit branch. -/
inductive BookingOutcome where
  | invalidInterval
  | saved (id : Nat)
deriving DecidableEq

/-- The booking validator branch (src/app.py lines 234-245): reject when
end_dt <= start_dt, otherwise INSERT a schedule row with a fresh id. -/
def createBooking (db : DB) (robot_id operator_id : Nat) (project : String)
    (start_dt end_dt : Int) : DB × BookingOutcome :=
  if end_dt ≤ start_dt then
    (db, BookingOutcome.invalidInterval)
  else
    ({ db with
        schedule := db.schedule ++
          [{ id := db.scheduleSeq, robot_id := robot_id, operator_id := operator_id,
             project_name := project, start_time := start_dt, end_time := end_dt }],
        scheduleSeq := db.scheduleSeq + 1 },
     BookingOutcome.saved db.scheduleSeq)

/-- Result of a booking deletion. The notFound constructor is the error kind
named by the specification; the code path (src/app.py lines 140-144) runs
DELETE FROM schedule WHERE id = :id and reports success unconditionally, so
it never produces notFound. -/
inductive DeleteBookingResult where
  | ok
  | notFound
deriving DecidableEq

/-- The booking delete branch (src/app.py lines 140-144): remove every
schedule row with the given id and report success. -/
def deleteBooking (db : DB) (bid : Nat) : DB × DeleteBookingResult :=
  ({ db with schedule := db.schedule.filter (fun s => !(s.id == bid)) },
   DeleteBookingResult.ok)

/-- Whether some schedule row references the given robot (the FOREIGN KEY
from schedule.robot_id to robots.id declared in init_db, src/app.py
lines 26-35). -/
def robotReferenced (db : DB) (r : Robot) : Bool :=
  db.schedule.any (fun s => s.robot_id == r.id)

/-- Outcome of a robot deletion. -/
inductive DeleteRobotOutcome where
  | deleted
  | refConflict
deriving DecidableEq

/-- The robot delete branch (src/app.py lines 163-174): DELETE FROM robots
WHERE name = :name inside try/except. The statement is keyed by name; the
foreign key on schedule.robot_id makes the whole statement fail atomically
when any matched robot is referenced, and the except branch then reports the
conflict with the state unchanged. -/
def deleteRobot (db : DB) (name : String) : DB × DeleteRobotOutcome :=
  if db.robots.any (fun r => r.name == name && robotReferenced db r) then
    (db, DeleteRobotOutcome.refConflict)
  else
    ({ db with robots := db.robots.filter (fun r => !(r.name == name)) },
     DeleteRobotOutcome.deleted)

/-- Operator qualified only on the Atlas model. -/
def opBobAtlas : Operator :=
  { id := 1, name := "Bob", role := "Field Technician", qualified_models := some "Atlas" }

/-- Operator qualified on the SpotMini model. -/
def opBobSpotMini : Operator :=
  { id := 2, name := "Bob", role := "Senior Engineer", qualified_models := some "SpotMini" }

/-- A robot of model Spot. -/
def robotUnit01 : Robot :=
  { id := 1, name := "Unit-01", model := "Spot", status := "Available" }

/-- A store with one robot and two overlapping schedule entries for it. -/
def dbOverlap : DB :=
  { robots := [robotUnit01],
    operators := [opBobSpotMini],
    schedule :=
      [{ id := 1, robot_id := 1, operator_id := 2, project_name := "SiteA",
         start_time := 0, end_time := 10 },
       { id := 2, robot_id := 1, operator_id := 2, project_name := "SiteB",
         start_time := 3, end_time := 12 }],
    scheduleSeq := 3 }

/-- A store with one robot, one operator and an empty schedule. -/
def dbNoBooking : DB :=
  { robots := [robotUnit01], operators := [opBobAtlas], schedule := [], scheduleSeq := 1 }

end RobotOps

namespace RobotOps

/-- Two robots with the same name and no schedule history. -/
def robotTwinA : Robot :=
  { id := 2, name := "Twin", model := "Atlas", status := "Available" }

/-- Second robot sharing the name Twin. -/
def robotTwinB : Robot :=
  { id := 3, name := "Twin", model := "Atlas", status := "Idle" }

/-- A store with three robots, two of which share the name Twin; only the
robot Unit-01 is referenced by the schedule. -/
def dbTwins : DB :=
  { robots := [robotUnit01, robotTwinA, robotTwinB],
    operators := [opBobSpotMini],
    schedule :=
      [{ id := 1, robot_id := 1, operator_id := 2, project_name := "SiteA",
         start_time := 0, end_time := 10 }],
    scheduleSeq := 2 }

/-- A store whose single robot has status Available. -/
def dbStatusA : DB :=
  { robots := [{ id := 1, name := "Unit-01", model := "Spot", status := "Available" }],
    operators := [opBobSpotMini],
    schedule :=
      [{ id := 1, robot_id := 1, operator_id := 2, project_name := "SiteA",
         start_time := 0, end_time := 10 }],
    scheduleSeq := 2 }

/-- The same store as dbStatusA except that the robot status reads Retired. -/
def dbStatusB : DB :=
  { robots := [{ id := 1, name := "Unit-01", model := "Spot", status := "Retired" }],
    operators := [opBobSpotMini],
    schedule :=
      [{ id := 1, robot_id := 1, operator_id := 2, project_name := "SiteA",
         start_time := 0, end_time := 10 }],
    scheduleSeq := 2 }

/-- An empty pattern is an initial segment of every character list. -/
theorem startsWithChars_nil_pat (l : List Char) : startsWithChars l [] = true := by
  cases l <;> rfl

/-- An empty pattern occurs inside every character list. -/
theorem containsChars_nil_pat (l : List Char) : containsChars l [] = true := by
  induction l with
  | nil => rfl
  | cons c cs ih => simp [containsChars, startsWithChars_nil_pat]

/-- The empty string is a substring of every string. -/
theorem strContainsSub_empty_pat (hay : String) : strContainsSub hay "" = true := by
  simp [strContainsSub, containsChars_nil_pat]

/-- The qualification matcher is the substring filter over the roster, also
when the roster is empty. -/
theorem validOps_filter_eq (M : String) (ops : List Operator) :
    validOps M ops = ops.filter (fun o => strContainsSub (o.qualified_models.getD "") M) := by
  cases ops with
  | nil => rfl
  | cons a t => simp [validOps]

/-- Filtering for a key value held by a unique element yields exactly that
element. -/
theorem filter_key_singleton {α : Type} (key : α → Nat)
    (l : List α) (x : Nat) (a : α)
    (hnd : (l.map key).Nodup) (ha : a ∈ l) (hk : key a = x) :
    l.filter (fun b => key b == x) = [a] := by
  induction l with
  | nil => exact absurd ha (List.not_mem_nil a)
  | cons c t ih =>
    rw [List.map_cons, List.nodup_cons] at hnd
    rcases List.mem_cons.mp ha with rfl | hat
    · have ht : t.filter (fun b => key b == x) = [] := by
        rw [List.filter_eq_nil_iff]
        intro b hb hbeq
        have hbx : key b = x := by simpa using hbeq
        apply hnd.1
        rw [hk, ← hbx]
        exact List.mem_map_of_mem key hb
      simp [List.filter_cons, hk, ht]
    · have hcx : (key c == x) = false := by
        rw [beq_eq_false_iff_ne]
        intro hcek
        apply hnd.1
        rw [hcek, ← hk]
        exact List.mem_map_of_mem key hat
      rw [List.filter_cons, if_neg (by simp [hcx])]
      exact ih hnd.2 hat

/-- A flatMap whose blocks all have length one preserves the length. -/
theorem length_flatMap_ones {α β : Type} (f : α → List β) (l : List α)
    (h : ∀ a ∈ l, (f a).length = 1) : (l.flatMap f).length = l.length := by
  induction l with
  | nil => rfl
  | cons c t ih =>
    rw [List.flatMap_cons, List.length_append, h c (List.mem_cons_self c t),
        ih (fun a ha => h a (List.mem_cons_of_mem c ha)), List.length_cons,
        Nat.add_comm]

/-- C1: a booking creation attempt with end_time at or before start_time is
rejected with the invalid-interval error and the store, in particular the
schedule table, is unchanged. -/
theorem createBooking_invalid_interval_rejected (db : DB) (rid oid : Nat)
    (proj : String) (start_dt end_dt : Int) (h : end_dt ≤ start_dt) :
    createBooking db rid oid proj start_dt end_dt = (db, BookingOutcome.invalidInterval) := by
  simp [createBooking, h]

/-- Witness for C1 at a concrete store and interval. -/
theorem createBooking_invalid_interval_rejected_witness :
    (9 : Int) ≤ 13 ∧
    createBooking dbNoBooking 1 1 "SiteA" 13 9 = (dbNoBooking, BookingOutcome.invalidInterval) :=
  ⟨by decide, createBooking_invalid_interval_rejected dbNoBooking 1 1 "SiteA" 13 9 (by decide)⟩

/-- C2: a robot deletion request naming a robot that some schedule entry
references fails with the reference-conflict outcome and leaves the store,
in particular the robots table, unchanged. -/
theorem deleteRobot_referenced_rejected (db : DB) (nm : String)
    (h : ∃ r ∈ db.robots, r.name = nm ∧ robotReferenced db r = true) :
    deleteRobot db nm = (db, DeleteRobotOutcome.refConflict) := by
  obtain ⟨r, hr, hname, href⟩ := h
  have hany : db.robots.any (fun r => r.name == nm && robotReferenced db r) = true :=
    List.any_eq_true.mpr ⟨r, hr, by simp [hname, href]⟩
  simp [deleteRobot, hany]

/-- Witness for C2: deleting the referenced robot Unit-01 is rejected. -/
theorem deleteRobot_referenced_rejected_witness :
    (∃ r ∈ dbOverlap.robots, r.name = "Unit-01" ∧ robotReferenced dbOverlap r = true) ∧
    deleteRobot dbOverlap "Unit-01" = (dbOverlap, DeleteRobotOutcome.refConflict) :=
  ⟨by decide, deleteRobot_referenced_rejected dbOverlap "Unit-01" (by decide)⟩

/-- C3 counterexample: with an empty robot model the matcher does not return
the empty set; every operator matches, because the empty string is a
substring of every serialized skills field. -/
theorem validOps_empty_model_counterexample :
    validOps "" [opBobAtlas] = [opBobAtlas] ∧ validOps "" [opBobAtlas] ≠ [] := by
  decide

/-- C3 amended: an empty roster yields the empty set, and an empty robot
model yields the entire roster (never an error). -/
theorem validOps_empty_cases (M : String) (ops : List Operator) :
    validOps M [] = [] ∧ validOps "" ops = ops := by
  constructor
  · rfl
  · cases ops with
    | nil => rfl
    | cons o t => simp [validOps, strContainsSub_empty_pat]

/-- C4: for a non-empty model string the matcher returns exactly the
operators of the roster whose serialized qualified_models field (nulls read
as empty) contains the model as a case-sensitive literal substring. -/
theorem validOps_substring_exact (M : String) (ops : List Operator) (o : Operator)
    (hM : M ≠ "") :
    (o ∈ validOps M ops ↔
      o ∈ ops ∧ strContainsSub (o.qualified_models.getD "") M = true) ∧
    validOps M ops = ops.filter (fun p => strContainsSub (p.qualified_models.getD "") M) := by
  refine ⟨?_, validOps_filter_eq M ops⟩
  rw [validOps_filter_eq]
  exact List.mem_filter

/-- Witness for C4: the operator trained on SpotMini is matched for a robot
of model Spot. -/
theorem validOps_substring_exact_witness :
    ("Spot" : String) ≠ "" ∧ opBobSpotMini ∈ validOps "Spot" [opBobSpotMini] :=
  ⟨by decide,
   ((validOps_substring_exact "Spot" [opBobSpotMini] opBobSpotMini (by decide)).1).mpr
     ⟨by decide, by decide⟩⟩

/-- C5: at every instant the engaged count equals the number of schedule
rows whose interval contains the instant with inclusive endpoints (entries
counted, not distinct robots), the available count is the total robot count
minus the engaged count over the integers, and at the concrete store
dbOverlap with one robot and two overlapping entries the available count is
minus one, produced as an ordinary value rather than an error. -/
theorem availability_formula :
    (∀ (db : DB) (t : Int),
        activeJobs db t = engagedPerSpec db t ∧
        availableRobots db t = (totalRobots db : Int) - (engagedPerSpec db t : Int)) ∧
    (totalRobots dbOverlap = 1 ∧ activeJobs dbOverlap 5 = 2 ∧
      availableRobots dbOverlap 5 = -1) := by
  constructor
  · intro db t
    have h : activeJobs db t = engagedPerSpec db t := by
      simp [activeJobs, engagedPerSpec, Bool.decide_and, ge_iff_le]
    exact ⟨h, by rw [availableRobots, h]⟩
  · exact ⟨rfl, by decide, by decide⟩

/-- C6 counterexample: deleting a booking by an identifier absent from the
schedule table does not fail with the not-found error; it reports success
and leaves the store unchanged. -/
theorem deleteBooking_missing_id_counterexample :
    deleteBooking dbNoBooking 1 = (dbNoBooking, DeleteBookingResult.ok) ∧
    (deleteBooking dbNoBooking 1).2 ≠ DeleteBookingResult.notFound := by
  decide

/-- C6 amended: deleting a booking by an identifier no schedule row carries
silently succeeds: the store is unchanged and the result is success, never
the not-found error. -/
theorem deleteBooking_missing_id_silent (db : DB) (bid : Nat)
    (h : ∀ s ∈ db.schedule, s.id ≠ bid) :
    deleteBooking db bid = (db, DeleteBookingResult.ok) := by
  have hfix : db.schedule.filter (fun s => !(s.id == bid)) = db.schedule :=
    List.filter_eq_self.mpr (fun s hs => by simp [h s hs])
  unfold deleteBooking
  rw [hfix]

/-- Witness for the amended C6 at a concrete store. -/
theorem deleteBooking_missing_id_silent_witness :
    (∀ s ∈ dbNoBooking.schedule, s.id ≠ 2) ∧
    deleteBooking dbNoBooking 2 = (dbNoBooking, DeleteBookingResult.ok) :=
  ⟨by decide, deleteBooking_missing_id_silent dbNoBooking 2 (by decide)⟩

/-- C7: when identifiers are unique in the robots and operators tables and
every schedule row references an existing robot and operator, the schedule
view has exactly one joined row per schedule entry, is sorted by start_time
descending, and an empty schedule yields the empty sequence. -/
theorem scheduleView_shape (db : DB)
    (hr : (db.robots.map Robot.id).Nodup)
    (ho : (db.operators.map Operator.id).Nodup)
    (hfk : ∀ s ∈ db.schedule,
      (∃ r ∈ db.robots, r.id = s.robot_id) ∧ (∃ o ∈ db.operators, o.id = s.operator_id)) :
    (scheduleView db).length = db.schedule.length ∧
    List.Sorted rowLe (scheduleView db) ∧
    (db.schedule = [] → scheduleView db = []) := by
  refine ⟨?_, List.sorted_insertionSort rowLe (joinedRows db), ?_⟩
  · have hperm := List.perm_insertionSort rowLe (joinedRows db)
    rw [scheduleView, hperm.length_eq, joinedRows]
    apply length_flatMap_ones
    intro s hs
    obtain ⟨⟨r, hrmem, hrid⟩, ⟨o, homem, hoid⟩⟩ := hfk s hs
    have h1 := filter_key_singleton Robot.id db.robots s.robot_id r hr hrmem hrid
    have h2 := filter_key_singleton Operator.id db.operators s.operator_id o ho homem hoid
    simp [h1, h2]
  · intro hnil
    rw [scheduleView, joinedRows, hnil]
    rfl

/-- Witness for C7 at a concrete store with two bookings. -/
theorem scheduleView_shape_witness :
    (dbOverlap.robots.map Robot.id).Nodup ∧
    ((scheduleView dbOverlap).length = dbOverlap.schedule.length ∧
     List.Sorted rowLe (scheduleView dbOverlap) ∧
     (dbOverlap.schedule = [] → scheduleView dbOverlap = [])) :=
  ⟨by decide, scheduleView_shape dbOverlap (by decide) (by decide) (by decide)⟩

/-- C8: two stores that agree on everything except the robots status fields
produce the same engaged count and the same available count at every
instant. -/
theorem availability_ignores_status (db1 db2 : DB) (t : Int)
    (hrob : List.Forall₂
      (fun r1 r2 : Robot => r1.id = r2.id ∧ r1.name = r2.name ∧ r1.model = r2.model)
      db1.robots db2.robots)
    (hops : db1.operators = db2.operators)
    (hsch : db1.schedule = db2.schedule) :
    activeJobs db1 t = activeJobs db2 t ∧
    availableRobots db1 t = availableRobots db2 t := by
  have hact : activeJobs db1 t = activeJobs db2 t := by
    unfold activeJobs
    rw [hsch]
  have hlen : db1.robots.length = db2.robots.length := hrob.length_eq
  refine ⟨hact, ?_⟩
  unfold availableRobots totalRobots
  rw [hlen, hact]

/-- Witness for C8: two stores differing only in a robot status label. -/
theorem availability_ignores_status_witness :
    List.Forall₂
      (fun r1 r2 : Robot => r1.id = r2.id ∧ r1.name = r2.name ∧ r1.model = r2.model)
      dbStatusA.robots dbStatusB.robots ∧
    dbStatusA.operators = dbStatusB.operators ∧
    dbStatusA.schedule = dbStatusB.schedule ∧
    (activeJobs dbStatusA 5 = activeJobs dbStatusB 5 ∧
      availableRobots dbStatusA 5 = availableRobots dbStatusB 5) :=
  ⟨List.Forall₂.cons ⟨rfl, rfl, rfl⟩ List.Forall₂.nil, rfl, rfl,
   availability_ignores_status dbStatusA dbStatusB 5
     (List.Forall₂.cons ⟨rfl, rfl, rfl⟩ List.Forall₂.nil) rfl rfl⟩

/-- C9: the schedule query is a pure read: it leaves the store unchanged,
and running it twice with no intervening write yields identical results. -/
theorem runScheduleQuery_idempotent (db : DB) :
    (runScheduleQuery db).1 = db ∧
    (runScheduleQuery ((runScheduleQuery db).1)).2 = (runScheduleQuery db).2 :=
  ⟨rfl, rfl⟩

/-- C10: robot deletion is keyed by name: when no robot carrying the
selected name is referenced by a schedule entry, the delete succeeds and
removes every robot row with that name, keeping every other row. -/
theorem deleteRobot_by_name_removes_all (db : DB) (nm : String)
    (h : ∀ r ∈ db.robots, r.name = nm → robotReferenced db r = false) :
    (deleteRobot db nm).2 = DeleteRobotOutcome.deleted ∧
    (deleteRobot db nm).1.robots = db.robots.filter (fun r => !(r.name == nm)) ∧
    (∀ r ∈ (deleteRobot db nm).1.robots, r.name ≠ nm) ∧
    (∀ r ∈ db.robots, r.name ≠ nm → r ∈ (deleteRobot db nm).1.robots) := by
  have hany : db.robots.any (fun r => r.name == nm && robotReferenced db r) = false := by
    rw [List.any_eq_false]
    intro r hr
    by_cases hn : r.name = nm
    · simp [hn, h r hr hn]
    · simp [hn]
  have hres : deleteRobot db nm =
      ({ db with robots := db.robots.filter (fun r => !(r.name == nm)) },
       DeleteRobotOutcome.deleted) := by
    simp [deleteRobot, hany]
  rw [hres]
  refine ⟨rfl, rfl, ?_, ?_⟩
  · intro r hrmem
    have := (List.mem_filter.mp hrmem).2
    simpa using this
  · intro r hrmem hrname
    exact List.mem_filter.mpr ⟨hrmem, by simpa using hrname⟩

/-- Witness for C10: deleting the shared name Twin removes both rows and
keeps Unit-01. -/
theorem deleteRobot_by_name_removes_all_witness :
    (∀ r ∈ dbTwins.robots, r.name = "Twin" → robotReferenced dbTwins r = false) ∧
    ((deleteRobot dbTwins "Twin").2 = DeleteRobotOutcome.deleted ∧
     (deleteRobot dbTwins "Twin").1.robots =
       dbTwins.robots.filter (fun r => !(r.name == "Twin")) ∧
     (∀ r ∈ (deleteRobot dbTwins "Twin").1.robots, r.name ≠ "Twin") ∧
     (∀ r ∈ dbTwins.robots, r.name ≠ "Twin" → r ∈ (deleteRobot dbTwins "Twin").1.robots)) :=
  ⟨by decide, deleteRobot_by_name_removes_all dbTwins "Twin" (by decide)⟩

end RobotOps
